import Mathlib

/-!
Verification of the clinical-NLP workshop notebooks
(nlp-01-intro_spacy, nlp-05-clinical-nlp-workshop).

The repository's own code consists of one Python function (ent_to_dict),
declarative rule lists handed to medspaCy's target matcher, one SQL query
string, and a flattening loop.  Each of those is embedded below as a Lean
definition translated from the notebook source, and the spec's claims about
them are settled as theorems.
-/

/-- A Python value stored in the row dictionary built by ent_to_dict:
either a string, a boolean, or an optional string (medspaCy's
section_title attribute is None when the entity lies outside any
recognised section). -/
inductive Value where
  | str (s : String)
  | bool (b : Bool)
  | optStr (s : Option String)
deriving DecidableEq, Repr

/-- An extracted entity (a spaCy Span with medspaCy extension attributes),
carrying exactly the attributes that the notebook's ent_to_dict reads:
the raw span text (ent.text, of which ent.lower_ is the lowercase form),
the label (ent.label_), the sentence text (ent.sent.text), the five
ConText extension attributes, and the section title. -/
structure Ent where
  text : String
  label_ : String
  sentText : String
  is_negated : Bool
  is_historical : Bool
  is_uncertain : Bool
  is_family : Bool
  is_hypothetical : Bool
  section_title : Option String
deriving DecidableEq, Repr

/-- Python str.lower / spaCy Span.lower_: the text with every character
lowercased. -/
def lowerStr (s : String) : String := String.mk (s.data.map Char.toLower)

/-- Embedding of the notebook function

    def ent_to_dict(ent):
        d = \x7b\x7d
        d["text"] = ent.lower_
        d["label"] = ent.label_
        d["sent"] = ent.sent.text
        # ConText attributes
        d["is_negated"] = ent._.is_negated
        d["is_historical"] = ent._.is_historical
        d["is_uncertain"] = ent._.is_uncertain
        d["is_family"] = ent._.is_family
        d["is_hypothetical"] = ent._.is_hypothetical
        # Section
        d["section_title"] = ent._.section_title
        return d

A Python dict with string keys preserves insertion order, so the result
is the association list of the nine assignments in source order. -/
def ent_to_dict (ent : Ent) : List (String × Value) :=
  [("text", .str (lowerStr ent.text)),
   ("label", .str ent.label_),
   ("sent", .str ent.sentText),
   ("is_negated", .bool ent.is_negated),
   ("is_historical", .bool ent.is_historical),
   ("is_uncertain", .bool ent.is_uncertain),
   ("is_family", .bool ent.is_family),
   ("is_hypothetical", .bool ent.is_hypothetical),
   ("section_title", .optStr ent.section_title)]

/-- C1: ent_to_dict returns a dictionary whose keys are exactly "text",
"label", "sent", "is_negated", "is_historical", "is_uncertain",
"is_family", "is_hypothetical" and "section_title", where "text" is the
lowercased entity text, "label" the entity's label, "sent" the text of
the entity's sentence, the five boolean fields the entity's context
attributes, and "section_title" the entity's section title. -/
theorem ent_to_dict_keys_and_values (ent : Ent) :
    (ent_to_dict ent).map Prod.fst =
      ["text", "label", "sent", "is_negated", "is_historical",
       "is_uncertain", "is_family", "is_hypothetical", "section_title"] ∧
    (ent_to_dict ent).lookup "text" = some (.str (lowerStr ent.text)) ∧
    (ent_to_dict ent).lookup "label" = some (.str ent.label_) ∧
    (ent_to_dict ent).lookup "sent" = some (.str ent.sentText) ∧
    (ent_to_dict ent).lookup "is_negated" = some (.bool ent.is_negated) ∧
    (ent_to_dict ent).lookup "is_historical" = some (.bool ent.is_historical) ∧
    (ent_to_dict ent).lookup "is_uncertain" = some (.bool ent.is_uncertain) ∧
    (ent_to_dict ent).lookup "is_family" = some (.bool ent.is_family) ∧
    (ent_to_dict ent).lookup "is_hypothetical" = some (.bool ent.is_hypothetical) ∧
    (ent_to_dict ent).lookup "section_title" = some (.optStr ent.section_title) :=
  ⟨rfl, rfl, rfl, rfl, rfl, rfl, rfl, rfl, rfl, rfl⟩

/-- A value is a context (ConText) attribute value exactly when it is one
of the booleans: in ent_to_dict the boolean-valued entries are precisely
the ones read from the ConText extension attributes. -/
def isBoolValue : Value → Bool
  | .bool _ => true
  | _ => false

/-- The keys of the context-attribute entries of a structured row. -/
def contextAttrKeys (row : List (String × Value)) : List String :=
  (row.filter (fun kv => isBoolValue kv.2)).map Prod.fst

/-- A concrete entity, as would be extracted from the notebook's example
sentence "No evidence of pneumonia." -/
def sampleEnt : Ent :=
  ⟨"Pneumonia", "PROBLEM", "No evidence of pneumonia.",
   true, false, false, false, false, some "impression"⟩

/-- C3 counterexample: the structured row carries the context attribute
is_hypothetical as well, which is not among the four dimensions the claim
lists, so the context attributes carried into the row are not exactly
is_negated, is_uncertain, is_historical, is_family. -/
theorem context_attrs_include_hypothetical :
    "is_hypothetical" ∈ contextAttrKeys (ent_to_dict sampleEnt) ∧
    "is_hypothetical" ∉
      (["is_negated", "is_uncertain", "is_historical", "is_family"] : List String) := by
  decide

/-- C3 amended: the context attributes of an entity carried into the
structured row are exactly is_negated, is_uncertain, is_historical,
is_family and is_hypothetical, and no others. -/
theorem context_attrs_exactly_five (ent : Ent) :
    (contextAttrKeys (ent_to_dict ent)).Perm
      ["is_negated", "is_uncertain", "is_historical", "is_family",
       "is_hypothetical"] := by
  have h : contextAttrKeys (ent_to_dict ent) =
      ["is_negated", "is_historical", "is_uncertain", "is_family",
       "is_hypothetical"] := rfl
  rw [h]
  decide

/-- A processed document: what the flattening loop reads from it is its
entity list (doc.ents). -/
structure Doc where
  ents : List Ent
deriving DecidableEq, Repr

/-- Embedding of the notebook's flattening loop

    ents_data = []
    for doc in docs:
        for ent in doc.ents:
            ents_data.append(ent_to_dict(ent))

as left folds that append one row per entity. -/
def buildEntsData (docs : List Doc) : List (List (String × Value)) :=
  docs.foldl (fun acc doc =>
    doc.ents.foldl (fun acc2 ent => acc2 ++ [ent_to_dict ent]) acc) []

theorem foldl_append_map (f : Ent → List (String × Value)) :
    ∀ (l : List Ent) (acc : List (List (String × Value))),
      l.foldl (fun a e => a ++ [f e]) acc = acc ++ l.map f := by
  intro l
  induction l with
  | nil => intro acc; simp
  | cons e l ih => intro acc; simp [ih]

theorem buildEntsData_foldl (docs : List Doc) :
    ∀ acc, docs.foldl (fun acc doc =>
        doc.ents.foldl (fun acc2 ent => acc2 ++ [ent_to_dict ent]) acc) acc =
      acc ++ docs.flatMap (fun d => d.ents.map ent_to_dict) := by
  induction docs with
  | nil => intro acc; simp
  | cons d docs ih =>
      intro acc
      rw [List.foldl_cons, foldl_append_map, ih, List.flatMap_cons, List.append_assoc]

/-- C6: the flattening loop appends exactly one row per extracted entity:
the table is the concatenation, in document order and within a document in
entity order, of the per-entity rows, and its length is the total number
of entities over all documents. -/
theorem ents_data_one_row_per_entity (docs : List Doc) :
    buildEntsData docs = docs.flatMap (fun d => d.ents.map ent_to_dict) ∧
    (buildEntsData docs).length = (docs.map (fun d => d.ents.length)).sum := by
  have h := buildEntsData_foldl docs []
  constructor
  · simpa [buildEntsData] using h
  · have h2 : (List.length ∘ fun d : Doc => List.map ent_to_dict d.ents) =
        fun d : Doc => d.ents.length := by
      funext d
      simp
    simp [buildEntsData, h, List.length_flatMap, h2]

/-- A record of the noteevents table; the query reads the columns
subject_id, category and text. -/
structure NoteEvent where
  subject_id : Nat
  category : String
  text : String
deriving DecidableEq, Repr

/-- Embedding of the notebook's SQL query

    SELECT subject_id, text
    FROM noteevents
    WHERE category = 'DISCHARGE_SUMMARY'
    LIMIT 10;

as filter (WHERE), projection to the two selected columns (SELECT), and
truncation to at most ten rows (LIMIT). -/
def runQuery (table : List NoteEvent) : List (Nat × String) :=
  (((table.filter (fun r => r.category == "DISCHARGE_SUMMARY")).map
      (fun r => (r.subject_id, r.text))).take 10)

/-- C5: against every state of the noteevents table the query returns at
most 10 rows, every returned row comes from a record whose category is
DISCHARGE_SUMMARY, and each row is exactly the (subject_id, text)
projection of that record. -/
theorem discharge_query_shape (table : List NoteEvent) :
    (runQuery table).length ≤ 10 ∧
    ∀ row ∈ runQuery table, ∃ rec ∈ table,
      rec.category = "DISCHARGE_SUMMARY" ∧ row = (rec.subject_id, rec.text) := by
  constructor
  · exact List.length_take_le 10 _
  · intro row hrow
    have h1 : row ∈ (table.filter (fun r => r.category == "DISCHARGE_SUMMARY")).map
        (fun r => (r.subject_id, r.text)) := List.mem_of_mem_take hrow
    obtain ⟨rec, hrec, hmap⟩ := List.mem_map.mp h1
    have h2 := List.mem_filter.mp hrec
    exact ⟨rec, h2.1, by simpa using h2.2, hmap.symm⟩

/-- A two-record table: one discharge summary and one radiology report. -/
def sampleTable : List NoteEvent :=
  [⟨1, "DISCHARGE_SUMMARY", "Chief complaint: fever."⟩,
   ⟨2, "RADIOLOGY_REPORT", "No evidence of pneumonia."⟩]

/-- Witness for C5 at a concrete table and a concrete returned row. -/
theorem discharge_query_shape_witness :
    ∃ rec ∈ sampleTable, rec.category = "DISCHARGE_SUMMARY" ∧
      ((1 : Nat), "Chief complaint: fever.") = (rec.subject_id, rec.text) :=
  (discharge_query_shape sampleTable).2 (1, "Chief complaint: fever.") (by decide)

/-- One per-token constraint of a rule pattern.  The Python form
\x7b"LOWER": \x7b"IN": values\x7d\x7d is a dictionary keyed on an attribute
name ("LOWER", the lowercased token text), whose value is an operator
dictionary ("IN") holding the list of admissible values. -/
structure TokenConstraint where
  attr : String
  op : String
  values : List String
deriving DecidableEq, Repr

/-- A medspaCy TargetRule as the notebook constructs them: a literal, a
category, and an optional pattern.  The literal is Option String because
two exercise rules leave the literal as the student blank (the identifier
with four underscores), which is modelled as none. -/
structure TargetRule where
  literal : Option String
  category : String
  pattern : Option (List TokenConstraint)
deriving DecidableEq, Repr

/-- The fully specified rule from the SSI cells:

    TargetRule("abdomen", "BODY_LOC",
              pattern =[
                  \x7b"LOWER": \x7b"IN": ["intra-abdominal", "intraabdominal", "abd"]\x7d\x7d,
                  \x7b"LOWER": \x7b"IN": ["right lower quadrant", "Right paracolic and anterior abdominal"]\x7d\x7d,
              ])
-/
def abdomenRule : TargetRule :=
  ⟨some "abdomen", "BODY_LOC",
   some [⟨"LOWER", "IN", ["intra-abdominal", "intraabdominal", "abd"]⟩,
         ⟨"LOWER", "IN",
          ["right lower quadrant", "Right paracolic and anterior abdominal"]⟩]⟩

/-- The target_rules list of the SSI exercise: a rule of category SSI
whose literal is left blank for the student, and the abdomen rule. -/
def ssiTargetRules : List TargetRule :=
  [⟨none, "SSI", none⟩, abdomenRule]

/-- The target_rules list of the COVID-19 exercise: a rule of category
COVID-19 whose literal is left blank for the student. -/
def covidTargetRules : List TargetRule :=
  [⟨none, "COVID-19", none⟩]

/-- All target rules written in the workshop notebook. -/
def workshopTargetRules : List TargetRule :=
  ssiTargetRules ++ covidTargetRules

/-- C7: every rule handed to the rule matcher is declarative: a literal
and a category, and every per-token constraint of every given pattern is
keyed on the lowercased token text via a LOWER/IN dictionary; in
particular the abdomen/BODY_LOC rule's pattern is the two-token pattern
with first token's lowercase among intra-abdominal, intraabdominal, abd
and second token's lowercase among right lower quadrant, Right paracolic
and anterior abdominal. -/
theorem target_rules_declarative :
    (∀ r ∈ workshopTargetRules, ∀ tc ∈ r.pattern.getD [],
        tc.attr = "LOWER" ∧ tc.op = "IN") ∧
    abdomenRule.literal = some "abdomen" ∧
    abdomenRule.category = "BODY_LOC" ∧
    abdomenRule.pattern =
      some [⟨"LOWER", "IN", ["intra-abdominal", "intraabdominal", "abd"]⟩,
            ⟨"LOWER", "IN",
             ["right lower quadrant", "Right paracolic and anterior abdominal"]⟩] := by
  refine ⟨?_, rfl, rfl, rfl⟩
  decide

/-- Witness for C7: the declarativeness conjunct applied to the abdomen
rule and the first token constraint of its pattern. -/
theorem target_rules_declarative_witness :
    TokenConstraint.attr
        ⟨"LOWER", "IN", ["intra-abdominal", "intraabdominal", "abd"]⟩ = "LOWER" ∧
    TokenConstraint.op
        ⟨"LOWER", "IN", ["intra-abdominal", "intraabdominal", "abd"]⟩ = "IN" :=
  target_rules_declarative.1 abdomenRule (by decide)
    ⟨"LOWER", "IN", ["intra-abdominal", "intraabdominal", "abd"]⟩ (by decide)

/-- The labels of the pretrained statistical NER model
en_info_3700_i2b2_2012 as the notebooks document them (problems, tests,
treatments). -/
def nerLabels : List String := ["PROBLEM", "TEST", "TREATMENT"]

/-- Every concept category the notebooks extract: the statistical NER
labels together with the categories of the supplied target rules. -/
def extractedConceptCategories : List String :=
  nerLabels ++ workshopTargetRules.map TargetRule.category

/-- The concept-category list the spec sentence gives: problems,
treatments, tests, surgical-site-infection evidence, COVID-19 status. -/
def claimedConceptCategories : List String :=
  ["PROBLEM", "TREATMENT", "TEST", "SSI", "COVID-19"]

/-- C4 counterexample: the abdomen rule's category BODY_LOC is a rule
category of the notebooks that lies outside the claimed list. -/
theorem body_loc_category_outside_spec_list :
    "BODY_LOC" ∈ extractedConceptCategories ∧
    "BODY_LOC" ∉ claimedConceptCategories := by
  decide

/-- C4 amended: the extracted concept categories are exactly problems,
treatments, tests, surgical-site-infection evidence, COVID-19 status,
and body location (BODY_LOC). -/
theorem concept_categories_with_body_loc :
    extractedConceptCategories.Perm ("BODY_LOC" :: claimedConceptCategories) := by
  decide

/-- A code cell of the workshop notebook that is part of an exercise:
its identifier, the source lines of the cell that contain the student
blank, and the error name recorded in the cell's stored output, when the
notebook ships one. -/
structure NotebookCell where
  cellName : String
  blankLines : List String
  recordedErrorName : Option String
deriving DecidableEq, Repr

/-- True when the character list contains four consecutive underscores,
the student-blank identifier of the exercises. -/
def hasBlankChars : List Char → Bool
  | '_' :: '_' :: '_' :: '_' :: _ => true
  | _ :: cs => hasBlankChars cs
  | [] => false

/-- True when the line uses the blank identifier with four underscores. -/
def usesBlank (s : String) : Bool := hasBlankChars s.data

/-- The fill-in-the-blank cells of the workshop notebook, each with the
source lines in which the blank identifier occurs.  The plot cell stores
a SyntaxError in its recorded output. -/
def exerciseCells : List NotebookCell :=
  [⟨"ssi-target-rules", ["    TargetRule(____, \"SSI\"),"], none⟩,
   ⟨"covid-context-items", ["    ConTextItem(____, \"POSITIVE_EXISTENCE\"),"], none⟩,
   ⟨"label-value-counts", ["label_counts = ents_df[\"label\"].____()"], none⟩,
   ⟨"label-counts-plot", ["____.head(10).plot.bar()"], some "SyntaxError"⟩,
   ⟨"pmh-filter-label", ["pmh = ents_df[ents_df[\"label\"] == ____]"], none⟩,
   ⟨"pmh-filter-section", ["pmh = pmh[pmh[____] == \"past_medical_history\"]"], none⟩,
   ⟨"pmh-value-counts", ["pmh = pmh[____].value_counts()"], none⟩,
   ⟨"fh-filter-label", ["fh = ents_df[ents_df[____] == ____]"], none⟩,
   ⟨"fh-filter-family",
    ["fh = fh[(fh[\"is_family\"] == ____) | (fh[____] == ____)]"], none⟩]

/-- Modelled from the spec: the Python/IPython interpreter that executes
notebook cells is third-party and not part of this source.  Per the spec
the exercises are fill-in-the-blank for students; no cell of the notebook
binds the four-underscore blank identifier, so a cell whose code still
uses it cannot evaluate successfully (it raises a SyntaxError, NameError
or AttributeError).  Evaluation is modelled as succeeding exactly when no
line of the cell uses the blank. -/
def cellEvaluatesSuccessfully (c : NotebookCell) : Bool :=
  !(c.blankLines.any usesBlank)

/-- C8: there are fill-in-the-blank exercise cells; each of them uses the
four-underscore blank identifier and none evaluates successfully
unmodified; in particular the cell whose line is ____.head(10).plot.bar()
fails with the SyntaxError its stored output records. -/
theorem exercise_cells_fail :
    exerciseCells ≠ [] ∧
    (∀ c ∈ exerciseCells,
        c.blankLines.any usesBlank = true ∧
        cellEvaluatesSuccessfully c = false) ∧
    (∃ c ∈ exerciseCells,
        c.blankLines = ["____.head(10).plot.bar()"] ∧
        c.recordedErrorName = some "SyntaxError") := by
  refine ⟨by decide, by decide, ?_⟩
  exact ⟨⟨"label-counts-plot", ["____.head(10).plot.bar()"], some "SyntaxError"⟩,
         by decide, rfl, rfl⟩

/-- Witness for C8: the universally quantified conjunct applied to the
plot cell whose stored output records the SyntaxError. -/
theorem exercise_cells_fail_witness :
    List.any
        (NotebookCell.blankLines
          ⟨"label-counts-plot", ["____.head(10).plot.bar()"], some "SyntaxError"⟩)
        usesBlank = true ∧
    cellEvaluatesSuccessfully
        ⟨"label-counts-plot", ["____.head(10).plot.bar()"], some "SyntaxError"⟩ = false :=
  exercise_cells_fail.2.1
    ⟨"label-counts-plot", ["____.head(10).plot.bar()"], some "SyntaxError"⟩
    (by decide)

/-- The entity attributes that ent_to_dict's statements touch; lowerAttr
is the derived read-only attribute ent.lower_. -/
inductive EntField where
  | lowerAttr | labelAttr | sentAttr | negatedAttr | historicalAttr
  | uncertainAttr | familyAttr | hypotheticalAttr | sectionAttr
deriving DecidableEq, Repr

/-- Reading an attribute of the entity. -/
def readField (e : Ent) : EntField → Value
  | .lowerAttr => .str (lowerStr e.text)
  | .labelAttr => .str e.label_
  | .sentAttr => .str e.sentText
  | .negatedAttr => .bool e.is_negated
  | .historicalAttr => .bool e.is_historical
  | .uncertainAttr => .bool e.is_uncertain
  | .familyAttr => .bool e.is_family
  | .hypotheticalAttr => .bool e.is_hypothetical
  | .sectionAttr => .optStr e.section_title

/-- Writing an attribute of the entity (the mutation Python would allow;
no statement of ent_to_dict performs one). -/
def writeField (e : Ent) (f : EntField) (v : Value) : Ent :=
  match f, v with
  | .labelAttr, .str s => { e with label_ := s }
  | .sentAttr, .str s => { e with sentText := s }
  | .negatedAttr, .bool b => { e with is_negated := b }
  | .historicalAttr, .bool b => { e with is_historical := b }
  | .uncertainAttr, .bool b => { e with is_uncertain := b }
  | .familyAttr, .bool b => { e with is_family := b }
  | .hypotheticalAttr, .bool b => { e with is_hypothetical := b }
  | .sectionAttr, .optStr s => { e with section_title := s }
  | _, _ => e

/-- A statement of the function body: either d[k] = ent.(f), which reads
the entity, or ent.(f) = v, which would mutate it. -/
inductive Stmt where
  | assignKey (k : String) (f : EntField)
  | setAttr (f : EntField) (v : Value)
deriving DecidableEq, Repr

/-- Python dict assignment d[k] = v: overwrite an existing key in place,
otherwise append the new key at the end. -/
def dictInsert (d : List (String × Value)) (k : String) (v : Value) :
    List (String × Value) :=
  if d.any (fun kv => kv.1 == k) then
    d.map (fun kv => if kv.1 == k then (k, v) else kv)
  else
    d ++ [(k, v)]

/-- Effect of one statement on the state (the dict being built and the
entity). -/
def applyStmt (st : List (String × Value) × Ent) (s : Stmt) :
    List (String × Value) × Ent :=
  match s with
  | .assignKey k f => (dictInsert st.1 k (readField st.2 f), st.2)
  | .setAttr f v => (st.1, writeField st.2 f v)

/-- Running a statement list from a state. -/
def runStmts (stmts : List Stmt) (st : List (String × Value) × Ent) :
    List (String × Value) × Ent :=
  stmts.foldl applyStmt st

/-- A statement is a pure read of the entity when it only assigns into
the dict. -/
def isRead : Stmt → Bool
  | .assignKey _ _ => true
  | .setAttr _ _ => false

/-- The body of ent_to_dict, statement by statement: nine dict
assignments, each reading one entity attribute, and no attribute write. -/
def entToDictStmts : List Stmt :=
  [.assignKey "text" .lowerAttr,
   .assignKey "label" .labelAttr,
   .assignKey "sent" .sentAttr,
   .assignKey "is_negated" .negatedAttr,
   .assignKey "is_historical" .historicalAttr,
   .assignKey "is_uncertain" .uncertainAttr,
   .assignKey "is_family" .familyAttr,
   .assignKey "is_hypothetical" .hypotheticalAttr,
   .assignKey "section_title" .sectionAttr]

theorem runStmts_preserves_ent_of_reads :
    ∀ (l : List Stmt), (∀ s ∈ l, isRead s = true) →
      ∀ (d : List (String × Value)) (e : Ent), (runStmts l (d, e)).2 = e := by
  intro l
  induction l with
  | nil => intro _ d e; rfl
  | cons s l ih =>
      intro h d e
      have hs : isRead s = true := h s (List.mem_cons_self s l)
      have hl : ∀ s ∈ l, isRead s = true := fun t ht => h t (List.mem_cons_of_mem s ht)
      cases s with
      | assignKey k f =>
          simpa [runStmts, List.foldl_cons, applyStmt] using
            ih hl (dictInsert d k (readField e f)) e
      | setAttr f v => simp [isRead] at hs

/-- C9: running the body of ent_to_dict leaves the entity (and so its
sentence, context attributes and section title) unchanged — every
statement is a read — and the dict it builds is exactly ent_to_dict's
result. -/
theorem ent_to_dict_pure (e : Ent) :
    (runStmts entToDictStmts ([], e)).2 = e ∧
    (runStmts entToDictStmts ([], e)).1 = ent_to_dict e := by
  constructor
  · exact runStmts_preserves_ent_of_reads entToDictStmts (by decide) [] e
  · simp [runStmts, entToDictStmts, applyStmt, dictInsert, readField, ent_to_dict]

/-- Two texts differ only in character case: lowercasing character by
character yields the same character sequence. -/
def caseVariants (s t : String) : Prop :=
  s.data.map Char.toLower = t.data.map Char.toLower

instance (s t : String) : Decidable (caseVariants s t) :=
  inferInstanceAs (Decidable (s.data.map Char.toLower = t.data.map Char.toLower))

theorem lowerStr_eq_of_caseVariants {s t : String} (h : caseVariants s t) :
    lowerStr s = lowerStr t :=
  congrArg String.mk h

/-- The "text" column of a list of structured rows, as value_counts reads
it. -/
def textColumn (rows : List (List (String × Value))) : List Value :=
  rows.filterMap (fun r => r.lookup "text")

/-- C10: entities whose texts differ only in character case (all other
attributes equal) get the same "text" value — indeed the same row — so a
value_counts aggregation over the "text" column counts the two case
variants as one value, of count 2. -/
theorem ent_to_dict_case_insensitive (e1 e2 : Ent)
    (hcase : caseVariants e1.text e2.text)
    (hlabel : e1.label_ = e2.label_) (hsent : e1.sentText = e2.sentText)
    (hneg : e1.is_negated = e2.is_negated)
    (hhist : e1.is_historical = e2.is_historical)
    (hunc : e1.is_uncertain = e2.is_uncertain)
    (hfam : e1.is_family = e2.is_family)
    (hhyp : e1.is_hypothetical = e2.is_hypothetical)
    (hsec : e1.section_title = e2.section_title) :
    (ent_to_dict e1).lookup "text" = (ent_to_dict e2).lookup "text" ∧
    ent_to_dict e1 = ent_to_dict e2 ∧
    (textColumn [ent_to_dict e1, ent_to_dict e2]).count
        (Value.str (lowerStr e1.text)) = 2 := by
  have hl := lowerStr_eq_of_caseVariants hcase
  have h1 : ent_to_dict e1 = ent_to_dict e2 := by
    simp only [ent_to_dict]
    rw [hl, hlabel, hsent, hneg, hhist, hunc, hfam, hhyp, hsec]
  refine ⟨by rw [h1], h1, ?_⟩
  have h2 : textColumn [ent_to_dict e1, ent_to_dict e2] =
      [Value.str (lowerStr e1.text), Value.str (lowerStr e2.text)] := rfl
  rw [h2, hl]
  simp [List.count_cons]

/-- The entity text "Pneumonia" as it appears capitalised in a section
header. -/
def pneumoniaTitle : Ent :=
  ⟨"Pneumonia", "PROBLEM", "No evidence of pneumonia.",
   false, false, false, false, false, some "impression"⟩

/-- The same entity attributes with the text fully uppercased. -/
def pneumoniaUpper : Ent :=
  ⟨"PNEUMONIA", "PROBLEM", "No evidence of pneumonia.",
   false, false, false, false, false, some "impression"⟩

/-- Witness for C10 at the two concrete case-variant entities. -/
theorem ent_to_dict_case_insensitive_witness :
    (ent_to_dict pneumoniaTitle).lookup "text" =
      (ent_to_dict pneumoniaUpper).lookup "text" ∧
    ent_to_dict pneumoniaTitle = ent_to_dict pneumoniaUpper ∧
    (textColumn [ent_to_dict pneumoniaTitle, ent_to_dict pneumoniaUpper]).count
        (Value.str (lowerStr pneumoniaTitle.text)) = 2 :=
  ent_to_dict_case_insensitive pneumoniaTitle pneumoniaUpper
    (by decide) rfl rfl rfl rfl rfl rfl rfl rfl
